import Mathlib

/-!
Shallow embedding of `src/tmuxp/workspacebuilder.py`.

The multiplexer control surface (server / session / window / pane objects)
is modelled as explicit state: a session is a list of window states, each
window a list of pane states.  Every call the builder issues to the control
surface is additionally recorded, in program order, in an event trace, so
that ordering claims ("no mutation call before the failure", "move, then
create, then kill") can be stated over the trace.

Python dictionaries holding the configuration are modelled as structures
with `Option` fields for optional keys.  `'focus' in conf and conf['focus']`
is modelled as a `Bool` field (present-and-truthy).  Ids for windows and
panes are drawn from a monotone counter, so freshly created handles never
collide with pre-existing ones.
-/

namespace Tmuxp

/-- Pane section of the configuration (`pconf` in the source).
`shell_command` is required by `iter_create_panes` (it indexes
`pconf['shell_command']` unconditionally); `config.expand`/`trickle`
guarantee it is present, possibly empty. -/
structure PaneConfig where
  start_directory : Option String
  focus : Bool
  shell_command : List String
deriving DecidableEq

/-- Window section of the configuration (`wconf` in the source). -/
structure WindowConfig where
  window_name : Option String
  window_index : Option Nat
  start_directory : Option String
  layout : Option String
  focus : Bool
  options : List (String × String)
  panes : List PaneConfig
deriving DecidableEq

/-- Session configuration (`sconf` in the source): a Python dict whose
possible keys are modelled as `Option` fields.  `SConf.isEmpty` plays the
role of Python's falsiness test `not sconf` (an empty dict). -/
structure SConf where
  session_name : Option String
  before_script : Option String
  windows : Option (List WindowConfig)
deriving DecidableEq

/-- Python `not sconf`: the configuration dict has no keys at all. -/
def SConf.isEmpty (c : SConf) : Bool :=
  c.session_name.isNone && c.before_script.isNone && c.windows.isNone

/-- One call issued to the multiplexer control surface, in program order.
Query calls (`has_session`, `findWhere`, `_list_sessions`,
`_update_windows`, `show_window_option`, `attached_pane`, `_update_panes`)
are recorded alongside mutations so that "zero calls" claims are meaningful. -/
inductive Event where
  | hasSession (name : String)
  | findWhere (name : String)
  | newSession (name : String)
  | listSessions
  | runScript (path : String)
  | killSession (sid : Nat)
  | moveWindow (wid : Nat) (toIdx : Nat)
  | newWindow (name : Option String) (sd : Option String) (attach : Bool)
      (idxHint : Option Nat)
  | killWindow (wid : Nat)
  | updateWindows
  | setWindowOption (wid : Nat) (key : String) (val : String)
  | selectWindow (wid : Nat)
  | showWindowOption (key : String)
  | attachedPane
  | splitWindow (wid : Nat) (attach : Bool) (sd : Option String)
  | selectLayout (wid : Nat) (layout : String)
  | sendKeys (pid : Nat) (cmd : String)
  | selectPane (pid : Nat)
  | updatePanes
deriving DecidableEq

/-- Live pane handle state. -/
structure PaneSt where
  pane_id : Nat
  pane_index : Nat
deriving DecidableEq

/-- Live window handle state.  `activePane` is the pane the window would
report as `attached_pane`. -/
structure WinSt where
  window_id : Nat
  window_index : Nat
  window_name : Option String
  options : List (String × String)
  panes : List PaneSt
  activePane : Nat
deriving DecidableEq

/-- State of the session being built, plus the trace of calls issued so
far.  `nextId` is the fresh-id counter; `paneBaseIndex` is the global
`pane-base-index` option; `attached` is the id of the session's currently
attached window. -/
structure BuildSt where
  sessionId : Nat
  sessionName : String
  windows : List WinSt
  attached : Nat
  nextId : Nat
  paneBaseIndex : Nat
  trace : List Event
deriving DecidableEq

/-- A live session supplied by the caller of `build` (the
`build(session=...)` path). -/
structure LiveSession where
  session_id : Nat
  session_name : String
  windows : List WinSt
  attached : Nat
deriving DecidableEq

/-- Largest handle id in use by a supplied live session (so the builder's
counter starts above it). -/
def LiveSession.maxUsedId (s : LiveSession) : Nat :=
  s.windows.foldr
    (fun w m => max (max w.window_id (w.panes.foldr (fun p m2 => max p.pane_id m2) 0)) m)
    s.session_id

/-- Errors `build` (or `WorkspaceBuilder.__init__`) can raise.
`emptyConfig` is `exc.EmptyConfigException`, `noServer` the
`TmuxpException` for a missing server, `sessionExists` is
`exc.TmuxSessionExists`, `keyErr k` a Python `KeyError` on `sconf[k]`,
`preScript` the exception re-raised after a failing `before_script`. -/
inductive BuildErr where
  | emptyConfig
  | noServer
  | sessionExists
  | keyErr (k : String)
  | preScript
deriving DecidableEq

/-- Result of a build: the error raised (if any) together with the state,
whose trace lists the calls issued up to that point. -/
structure BuildOut where
  err : Option BuildErr
  st : BuildSt
deriving DecidableEq

/-- Record one control-surface call. -/
def emit (e : Event) (st : BuildSt) : BuildSt :=
  { st with trace := st.trace ++ [e] }

/-- Auto-assignment of a window index by the multiplexer: the lowest
index ≥ 1 not currently in use (the search range is large enough by
pigeonhole). -/
def lowestUnusedFrom (used : List Nat) : Nat :=
  ((List.range (used.length + 2)).find? (fun n => n != 0 && !(used.contains n))).getD 0

/-- The source's `get_pane_start_directory()`: pane's own
`start_directory` if the key is present, else the window's, else `None`. -/
def resolveSd (pc : PaneConfig) (wc : WindowConfig) : Option String :=
  match pc.start_directory with
  | some d => some d
  | none => wc.start_directory

/-- `if 'layout' in wconf: w.select_layout(wconf['layout'])`. -/
def emitLayout (wid : Nat) (wc : WindowConfig) (st : BuildSt) : BuildSt :=
  match wc.layout with
  | some l => emit (.selectLayout wid l) st
  | none => st

/-- Body shared by every pane iteration, after the pane handle `pid` has
been obtained: the remainder of the `iter_create_panes` loop body
(layout, `send_keys`, focus select, `_update_panes`) followed by the
consumer side in `build` (layout again, focus-candidate recording). -/
def paneBody (wid : Nat) (wc : WindowConfig) (pc : PaneConfig) (pid : Nat)
    (w : WinSt) (st : BuildSt) (acc : Option Nat) :
    BuildSt × WinSt × Option Nat :=
  let st : BuildSt := emitLayout wid wc st
  let st := pc.shell_command.foldl (fun s c => emit (.sendKeys pid c) s) st
  let stw := if pc.focus
    then (emit (.selectPane pid) st, { w with activePane := pid })
    else (st, w)
  let st := emit .updatePanes stw.1
  let st : BuildSt := emitLayout wid wc st
  let acc := if pc.focus then some pid else acc
  (st, stw.2, acc)

/-- The `iter_create_panes` loop after its first iteration: every
remaining pane is created by `w.split_window(attach=True, ...)`.  `acc`
is the `focus_pane` candidate accumulated by `build`'s consumer loop. -/
def iter_create_panes_rest (wid : Nat) (wc : WindowConfig) :
    List PaneConfig → Option Nat → WinSt → BuildSt →
      BuildSt × WinSt × Option Nat
  | [], acc, w, st => (st, w, acc)
  | pc :: rest, acc, w, st =>
    let pid := st.nextId
    let st := emit (.splitWindow wid true (resolveSd pc wc)) st
    let w := { w with
      panes := w.panes ++ [⟨pid, st.paneBaseIndex + w.panes.length⟩],
      activePane := pid }
    let st := { st with nextId := st.nextId + 1 }
    let r := paneBody wid wc pc pid w st acc
    iter_create_panes_rest wid wc rest r.2.2 r.2.1 r.1

/-- `iter_create_panes` interleaved with its consumer loop in `build`:
reads the global `pane-base-index`, reuses the window's attached pane for
the first configured pane, splits for the rest.  Returns the updated
state, the window handle, and the window's `focus_pane` candidate. -/
def iter_create_panes (wid : Nat) (wc : WindowConfig) (w : WinSt)
    (st : BuildSt) : BuildSt × WinSt × Option Nat :=
  let st := emit (.showWindowOption "pane-base-index") st
  match wc.panes with
  | [] => (st, w, none)
  | pc :: rest =>
    let st := emit .attachedPane st
    let pid := w.activePane
    let r := paneBody wid wc pc pid w st none
    iter_create_panes_rest wid wc rest r.2.2 r.2.1 r.1

/-- `for key, val in wconf['options'].items(): w.set_window_option(key, val)`. -/
def applyOptions (wid : Nat) (opts : List (String × String))
    (st : BuildSt) (w : WinSt) : BuildSt × WinSt :=
  opts.foldl
    (fun p kv =>
      (emit (.setWindowOption wid kv.1 kv.2) p.1,
       { p.2 with options := p.2.options ++ [kv] }))
    (st, w)

/-- One iteration of the generator `iter_create_windows`, up to its
`yield`: for the first configured window, displace the session's attached
window to index 99, create the new window, kill the displaced original;
otherwise just create.  Then `_update_windows`, apply options, select the
window if its `focus` flag is truthy, `_update_windows` again.  The new
window handle is returned separately and appended to the session by
`processWindow` once its panes are built (no other call reads the window
list in between).  When the attached window is killed the multiplexer
reattaches to the first surviving window (the fresh window if none). -/
def createWindow (isFirst : Bool) (wc : WindowConfig) (st : BuildSt) :
    BuildSt × WinSt :=
  let origOpt : Option Nat := if isFirst then some st.attached else none
  let st : BuildSt := match origOpt with
    | some oid =>
      let moved : List WinSt := st.windows.map
        (fun w => if w.window_id = oid then { w with window_index := 99 } else w)
      emit (.moveWindow oid 99) { st with windows := moved }
    | none => st
  let wid := st.nextId
  let pid := st.nextId + 1
  let idx : Nat := match wc.window_index with
    | some i => i
    | none => lowestUnusedFrom (st.windows.map (·.window_index))
  let w : WinSt :=
    ⟨wid, idx, wc.window_name, [], [⟨pid, st.paneBaseIndex⟩], pid⟩
  let st := emit (.newWindow wc.window_name wc.start_directory false wc.window_index)
    { st with nextId := st.nextId + 2 }
  let st : BuildSt := match origOpt with
    | some oid =>
      let remaining : List WinSt := st.windows.filter (fun w2 => w2.window_id ≠ oid)
      let att : Nat := if st.attached = oid
        then ((remaining.head?).map (fun w2 => w2.window_id)).getD wid
        else st.attached
      emit (.killWindow oid) { st with windows := remaining, attached := att }
    | none => st
  let st := emit .updateWindows st
  let sw := applyOptions wid wc.options st w
  let st := if wc.focus then emit (.selectWindow wid) { sw.1 with attached := wid } else sw.1
  let st := emit .updateWindows st
  (st, sw.2)

/-- One full iteration of `build`'s window loop: create the window, build
its panes, select the window's `focus_pane` candidate (if any), and only
then does the session's window list gain the finished window. -/
def processWindow (isFirst : Bool) (wc : WindowConfig) (st : BuildSt) :
    BuildSt × Nat :=
  let sw := createWindow isFirst wc st
  let r := iter_create_panes sw.2.window_id wc sw.2 sw.1
  let stw : BuildSt × WinSt := match r.2.2 with
    | some pid => (emit (.selectPane pid) r.1, { r.2.1 with activePane := pid })
    | none => (r.1, r.2.1)
  ({ stw.1 with windows := stw.1.windows ++ [stw.2] }, sw.2.window_id)

/-- The `for w, wconf in self.iter_create_windows(session)` loop of
`build`, threading the window-level `focus` candidate. -/
def iter_create_windows :
    List WindowConfig → Bool → Option Nat → BuildSt → BuildSt × Option Nat
  | [], _, foc, st => (st, foc)
  | wc :: rest, isFirst, foc, st =>
    let r := processWindow isFirst wc st
    let foc := if wc.focus then some r.2 else foc
    iter_create_windows rest false foc r.1

/-- The window-building phase of `build`: reads `sconf['windows']`
(raising `KeyError` when absent), runs the window loop starting with the
first-window flag set, then performs the final
`if focus: focus.select_window()`. -/
def windowsPhase (sconf : SConf) (st : BuildSt) : BuildOut :=
  match sconf.windows with
  | none => ⟨some (.keyErr "windows"), st⟩
  | some ws =>
    let r := iter_create_windows ws true none st
    let st := match r.2 with
      | some wid => emit (.selectWindow wid) { r.1 with attached := wid }
      | none => r.1
    ⟨none, st⟩

/-- `build` from the point where `self.session` is set (source line 132
on): `_list_sessions`, the `has_session` assertion, the optional
`before_script` (killing the session and re-raising on failure), then the
window loop and final focus selection. -/
def finishBuild (sconf : SConf) (scriptOk : String → Bool) (st0 : BuildSt) :
    BuildOut :=
  let st := emit .listSessions st0
  let st := emit (.hasSession st.sessionName) st
  match sconf.before_script with
  | some path =>
    let st := emit (.runScript path) st
    if scriptOk path then windowsPhase sconf st
    else ⟨some .preScript, emit (.killSession st.sessionId) st⟩
  | none => windowsPhase sconf st

/-- `WorkspaceBuilder.__init__` followed by `WorkspaceBuilder.build`.
`hasServer` is whether a `Server` was passed to `__init__`, `existing`
the names of sessions already running on that server, `supplied` the
optional session argument of `build`, `scriptOk` the outcome of
`run_before_script` for each script path, `paneBase` the global
`pane-base-index` option.  A freshly created session gets id 0, its
default window id 1 (index 1) and that window's single pane id 2. -/
def build (sconf : SConf) (hasServer : Bool) (existing : List String)
    (supplied : Option LiveSession) (scriptOk : String → Bool)
    (paneBase : Nat) : BuildOut :=
  if sconf.isEmpty then ⟨some .emptyConfig, ⟨0, "", [], 0, 0, paneBase, []⟩⟩
  else
    match supplied with
    | some s =>
      finishBuild sconf scriptOk
        ⟨s.session_id, s.session_name, s.windows, s.attached,
          s.maxUsedId + 1, paneBase, []⟩
    | none =>
      if !hasServer then ⟨some .noServer, ⟨0, "", [], 0, 0, paneBase, []⟩⟩
      else
        match sconf.session_name with
        | none => ⟨some (.keyErr "session_name"), ⟨0, "", [], 0, 0, paneBase, []⟩⟩
        | some name =>
          if existing.contains name then
            ⟨some .sessionExists,
              ⟨0, name, [], 0, 0, paneBase, [.hasSession name, .findWhere name]⟩⟩
          else
            finishBuild sconf scriptOk
              ⟨0, name, [⟨1, 1, none, [], [⟨2, paneBase⟩], 2⟩], 1, 3, paneBase,
                [.hasSession name, .newSession name]⟩

/-! ### Freeze

`freeze(session)` is a pure read-side traversal: it consumes a snapshot of
a live session (`FSession`) and produces a configuration dict.  Attribute
reads are modelled as fields: `pane_current_path` is a `String` (live
panes always report one; the source concatenates it unguarded),
`pane_active`/`window_active` are the `p.get(..., '0') == '1'` tests as
`Bool`, `pane_current_command` is a `String` where `""` stands for a
falsy value. -/

/-- Python `s.startswith(pre)`, over the character list (the byte-position
based `String.startsWith` does not reduce in the kernel). -/
def strStartsWith (s pre : String) : Bool :=
  pre.data.isPrefixOf s.data

/-- Python `s.endswith(suf)`, over the character list. -/
def strEndsWith (s suf : String) : Bool :=
  suf.data.isSuffixOf s.data

/-- Snapshot of a live pane as `freeze` reads it. -/
structure FPane where
  pane_current_path : String
  pane_active : Bool
  pane_current_command : String
deriving DecidableEq

/-- Snapshot of a live window as `freeze` reads it. -/
structure FWindow where
  window_name : Option String
  window_layout : Option String
  window_active : Bool
  options : List (String × String)
  panes : List FPane
deriving DecidableEq

/-- Snapshot of a live session as `freeze` reads it. -/
structure FSession where
  session_name : String
  windows : List FWindow
deriving DecidableEq

/-- An element of a frozen pane's `shell_command` list.  The source
appends either a command string or — for `bash`/`Python` — a bare empty
list `[]`. -/
inductive SCEntry where
  | str (s : String)
  | emptyList
deriving DecidableEq

/-- A frozen pane section: either the degenerate placeholder string
`'pane'` (a pane with nothing to replay) or a populated dict. -/
inductive PConfOut where
  | pane
  | conf (shell_command : List SCEntry) (focus : Bool)
deriving DecidableEq

/-- A frozen window section. -/
structure WConfOut where
  options : List (String × String)
  window_name : Option String
  layout : Option String
  focus : Bool
  start_directory : Option String
  panes : List PConfOut
deriving DecidableEq

/-- A frozen session configuration. -/
structure SConfOut where
  session_name : String
  windows : List WConfOut
deriving DecidableEq

/-- The source's `pane_has_same_path` test folded over the window:
`all(w.panes[0].pane_current_path == p.pane_current_path for p in panes)`
(vacuously true on an empty list, like Python's `all`). -/
def allSamePath (ps : List FPane) : Bool :=
  match ps with
  | [] => true
  | p0 :: _ => ps.all (fun p => p.pane_current_path == p0.pane_current_path)

/-- The per-pane body of `freeze`'s window loop.  `wHasStartDir` is the
Python test `'start_directory' not in wconf` negated: whether the hoisted
window-level `start_directory` key was set.  Follows the source's
sequence: start with an empty `shell_command`, append the `cd` command
unless hoisted, record `focus`, null out the current command when it
starts with `-` or ends with `python`/`ruby`/`node`, append `[]` for
`bash`/`Python` and the command itself otherwise, and collapse to the
placeholder `'pane'` when nothing was collected. -/
def freezePane (wHasStartDir : Bool) (p : FPane) : PConfOut :=
  let sc0 : List SCEntry := []
  let sc1 : List SCEntry :=
    if !wHasStartDir then sc0 ++ [.str ("cd " ++ p.pane_current_path)] else sc0
  let focus := p.pane_active
  let cmd0 := p.pane_current_command
  let filtered :=
    strStartsWith cmd0 "-" || ["python", "ruby", "node"].any (fun c => strEndsWith cmd0 c)
  let cmd1 := if filtered then "" else cmd0
  if cmd1 ≠ "" then
    if cmd1 = "bash" ∨ cmd1 = "Python" then .conf (sc1 ++ [.emptyList]) focus
    else .conf (sc1 ++ [.str cmd1]) focus
  else if sc1.length = 0 then .pane
  else .conf sc1 focus

/-- One window of `freeze`: options, name, layout, `focus` iff reported
active, the hoisted `start_directory` when every pane reports the same
current path (the source then reads `w.panes[0]`; on the impossible empty
window the model yields `none`), and the pane sections. -/
def freezeWindow (w : FWindow) : WConfOut :=
  let sd : Option String :=
    if allSamePath w.panes then (w.panes.head?).map (·.pane_current_path) else none
  { options := w.options
    window_name := w.window_name
    layout := w.window_layout
    focus := w.window_active
    start_directory := sd
    panes := w.panes.map (freezePane sd.isSome) }

/-- `freeze(session)`: session name plus one frozen window per live
window. -/
def freeze (s : FSession) : SConfOut :=
  { session_name := s.session_name
    windows := s.windows.map freezeWindow }

/-! ### Derived notions used by the claims -/

/-- The current-command part of a frozen pane's `shell_command`: empty
when the command is filtered out (login-marker prefix `-`, or a
`python`/`ruby`/`node` suffix) or falsy, a bare `[]` entry for `bash` and
`Python`, the command string otherwise.  `freezePane` is proved equal to
the `cd`-prefix/command-part decomposition below. -/
def cmdEntries (p : FPane) : List SCEntry :=
  let c := p.pane_current_command
  if strStartsWith c "-" || ["python", "ruby", "node"].any (fun suf => strEndsWith c suf) then []
  else if c = "" then []
  else if c = "bash" ∨ c = "Python" then [.emptyList]
  else [.str c]

/-- Modelled from the claim's wording, for comparison against the code
(the code itself carries no such list): a bare interactive-shell or
interpreter name — a login-shell-marker-prefixed command, a generic
shell, or a common scripting-language REPL. -/
def specBareShellOrInterp (s : String) : Bool :=
  strStartsWith s "-" ||
    ["sh", "bash", "zsh", "csh", "ksh", "fish", "dash",
     "python", "ruby", "node", "irb"].contains s

/-- Whether a frozen configuration records some bare shell/interpreter
name (in the claim's sense) as a replayable `shell_command` entry. -/
def recordsBareShell (sc : SConfOut) : Bool :=
  sc.windows.any (fun w =>
    w.panes.any (fun pcOut =>
      match pcOut with
      | .pane => false
      | .conf es _ => es.any (fun e =>
          match e with
          | .str s => specBareShellOrInterp s
          | .emptyList => false)))

/-! ### Derived notions for the build claims -/

/-- Window-creation events. -/
def isNewWindowEv : Event → Bool
  | .newWindow _ _ _ _ => true
  | _ => false

/-- Pane-creation (split) events. -/
def isSplitEv : Event → Bool
  | .splitWindow _ _ _ => true
  | _ => false

/-- Focus-selection events (window or pane). -/
def isSelectEv : Event → Bool
  | .selectWindow _ => true
  | .selectPane _ => true
  | _ => false

/-- Window- or pane-creation events. -/
def isCreateEv (e : Event) : Bool :=
  isNewWindowEv e || isSplitEv e

/-- Calls that mutate multiplexer state (as opposed to queries). -/
def isMutationEv : Event → Bool
  | .newSession _ => true
  | .killSession _ => true
  | .moveWindow _ _ => true
  | .newWindow _ _ _ _ => true
  | .killWindow _ => true
  | .setWindowOption _ _ _ => true
  | .selectWindow _ => true
  | .splitWindow _ _ _ => true
  | .selectLayout _ _ => true
  | .sendKeys _ _ => true
  | .selectPane _ => true
  | _ => false

/-- Whether some selection event is strictly followed by some
window/pane-creation event in the trace, i.e. focus was selected while
windows/panes were still being created. -/
def hasCreateAfterSelect : List Event → Bool
  | [] => false
  | e :: rest => (isSelectEv e && rest.any isCreateEv) || hasCreateAfterSelect rest

/-- Position of the last pane config whose `focus` flag is truthy. -/
def lastFocusIdxP : List PaneConfig → Option Nat
  | [] => none
  | p :: rest =>
    match lastFocusIdxP rest with
    | some j => some (j + 1)
    | none => if p.focus then some 0 else none

/-- Position of the last window config whose `focus` flag is truthy. -/
def lastFocusIdxW : List WindowConfig → Option Nat
  | [] => none
  | wc :: rest =>
    match lastFocusIdxW rest with
    | some j => some (j + 1)
    | none => if wc.focus then some 0 else none

/-- Events contributed by the optional `before_script` when it succeeds. -/
def scriptEvents (sconf : SConf) : List Event :=
  match sconf.before_script with
  | some p => [.runScript p]
  | none => []

/-- The calls a fresh (session-creating, pre-script-passing) build issues
before the window loop starts. -/
def preludeEvents (name : String) (sconf : SConf) : List Event :=
  [.hasSession name, .newSession name, .listSessions, .hasSession name] ++
    scriptEvents sconf

/-- Closed form of the events `paneBody` emits. -/
def layoutEvs (wid : Nat) (wc : WindowConfig) : List Event :=
  match wc.layout with
  | some l => [.selectLayout wid l]
  | none => []

/-- Closed form of one pane-iteration body's events: layout, the
keystrokes, the focus select, `_update_panes`, layout again. -/
def paneBodyEvents (wid : Nat) (wc : WindowConfig) (pc : PaneConfig) (pid : Nat) :
    List Event :=
  layoutEvs wid wc ++ pc.shell_command.map (Event.sendKeys pid) ++
    (if pc.focus then [Event.selectPane pid] else []) ++ [Event.updatePanes] ++
    layoutEvs wid wc

/-- Closed form of the panes the split loop appends: ids counting up from
the current counter, indices counting up from `idx`. -/
def restPanes : List PaneConfig → Nat → Nat → List PaneSt
  | [], _, _ => []
  | _ :: rest, nid, idx => ⟨nid, idx⟩ :: restPanes rest (nid + 1) (idx + 1)

/-- Closed form of the events the split loop emits. -/
def restEvents (wid : Nat) (wc : WindowConfig) : List PaneConfig → Nat → List Event
  | [], _ => []
  | pc :: rest, nid =>
    Event.splitWindow wid true (resolveSd pc wc) ::
      (paneBodyEvents wid wc pc nid ++ restEvents wid wc rest (nid + 1))

/-- The session's window list after the first-window displacement: the
attached window is re-indexed to 99 and then killed. -/
def movedList (st : BuildSt) : List WinSt :=
  st.windows.map
    (fun w => if w.window_id = st.attached then { w with window_index := 99 } else w)

/-- The pre-existing windows surviving `createWindow`. -/
def winBase (isFirst : Bool) (st : BuildSt) : List WinSt :=
  if isFirst then (movedList st).filter (fun w2 => w2.window_id ≠ st.attached)
  else st.windows

/-- The index the new window receives: the explicit hint, else the
multiplexer's auto-assignment over the (possibly displaced) windows. -/
def newWinIdx (isFirst : Bool) (wc : WindowConfig) (st : BuildSt) : Nat :=
  match wc.window_index with
  | some i => i
  | none =>
    lowestUnusedFrom ((if isFirst then movedList st else st.windows).map (·.window_index))

/-- The attached window after `createWindow`: the focused new window, the
reattachment target after the first-window kill, or unchanged. -/
def cwAtt (isFirst : Bool) (wc : WindowConfig) (st : BuildSt) : Nat :=
  if wc.focus then st.nextId
  else if isFirst then (((winBase true st).head?).map (·.window_id)).getD st.nextId
  else st.attached

/-- Closed form of a built window's panes: `n` panes whose ids count up
from `pid` and whose indices count up from `idx`. -/
def panesFor : Nat → Nat → Nat → List PaneSt
  | 0, _, _ => []
  | n + 1, pid, idx => ⟨pid, idx⟩ :: panesFor n (pid + 1) (idx + 1)

/-- Closed form of the window `processWindow` appends for a window config
with at least one pane: id `st.nextId`, the configured name and options,
one pane per pane config (ids from `st.nextId + 1`), and the active pane
determined by the last `focus: true` pane (else the last-split pane). -/
def pwWindow (isFirst : Bool) (wc : WindowConfig) (st : BuildSt) : WinSt :=
  ⟨st.nextId, newWinIdx isFirst wc st, wc.window_name, wc.options,
   panesFor wc.panes.length (st.nextId + 1) st.paneBaseIndex,
   match lastFocusIdxP wc.panes with
   | some j => st.nextId + 1 + j
   | none => st.nextId + 1 + (wc.panes.length - 1)⟩

/-- Closed form of the events `createWindow` emits. -/
def cwEvents (isFirst : Bool) (wc : WindowConfig) (st : BuildSt) : List Event :=
  (if isFirst then [Event.moveWindow st.attached 99] else []) ++
    [Event.newWindow wc.window_name wc.start_directory false wc.window_index] ++
    (if isFirst then [Event.killWindow st.attached] else []) ++
    [Event.updateWindows] ++
    wc.options.map (fun kv => Event.setWindowOption st.nextId kv.1 kv.2) ++
    (if wc.focus then [Event.selectWindow st.nextId] else []) ++
    [Event.updateWindows]

/-- Closed form of the events one full window iteration emits: window
creation, the pane-base-index query, the attached-pane query, the panes'
bodies and splits, and the window's `focus_pane` selection. -/
def pwEvents (isFirst : Bool) (wc : WindowConfig) (st : BuildSt) : List Event :=
  cwEvents isFirst wc st ++
    (match wc.panes with
     | [] => [Event.showWindowOption "pane-base-index"]
     | pc :: rest =>
       [Event.showWindowOption "pane-base-index", Event.attachedPane] ++
         paneBodyEvents st.nextId wc pc (st.nextId + 1) ++
         restEvents st.nextId wc rest (st.nextId + 2) ++
         (match lastFocusIdxP wc.panes with
          | some j => [Event.selectPane (st.nextId + 1 + j)]
          | none => []))

end Tmuxp

namespace Tmuxp

/-! ### Freeze lemmas and theorems -/

/-- `freezePane` decomposes as: the `cd` entry exactly when the window
did not hoist `start_directory`, followed by the command part; a pane
whose list would be empty degenerates to the `'pane'` placeholder. -/
theorem freezePane_eq (hz : Bool) (p : FPane) :
    freezePane hz p =
      if hz then
        (if cmdEntries p = [] then .pane else .conf (cmdEntries p) p.pane_active)
      else
        .conf (.str ("cd " ++ p.pane_current_path) :: cmdEntries p) p.pane_active := by
  cases hz <;>
    simp only [freezePane, cmdEntries, Bool.not_true, Bool.not_false, if_true, if_false] <;>
    split_ifs <;> simp_all

/-- C5: for every live session and window in it (with at least one pane,
the multiplexer invariant), `freeze` hoists a window-level
`start_directory` exactly when all panes report an identical
`pane_current_path`; in that case every frozen pane consists of the
command part alone (no `cd` entry), and otherwise every frozen pane
carries its own `cd <path>` entry in front. -/
theorem freeze_hoist_start_directory_iff (s : FSession) (i : Nat) (w : FWindow)
    (hw : s.windows[i]? = some w) (hne : w.panes ≠ []) :
    (freeze s).windows[i]? = some (freezeWindow w) ∧
    (freezeWindow w).start_directory.isSome = allSamePath w.panes ∧
    (freezeWindow w).panes = w.panes.map (fun p =>
      if allSamePath w.panes then
        (if cmdEntries p = [] then PConfOut.pane
         else PConfOut.conf (cmdEntries p) p.pane_active)
      else
        PConfOut.conf (SCEntry.str ("cd " ++ p.pane_current_path) :: cmdEntries p)
          p.pane_active) := by
  obtain ⟨p0, ps, hps⟩ := List.exists_cons_of_ne_nil hne
  have hiso : (freezeWindow w).start_directory.isSome = allSamePath w.panes := by
    simp only [freezeWindow, hps]
    cases h : allSamePath (p0 :: ps) <;> simp
  refine ⟨?_, hiso, ?_⟩
  · simp [freeze, hw]
  · simp only [freezeWindow] at hiso ⊢
    rw [hiso]
    exact List.map_congr_left (fun p _ => freezePane_eq (allSamePath w.panes) p)

/-- Witness for `freeze_hoist_start_directory_iff` at a two-pane window
with differing paths. -/
theorem freeze_hoist_start_directory_iff_w :
    (freeze ⟨"d", [⟨none, none, false, [],
        [⟨"/a", false, "vim"⟩, ⟨"/b", false, ""⟩]⟩]⟩).windows[0]? =
      some (freezeWindow ⟨none, none, false, [],
        [⟨"/a", false, "vim"⟩, ⟨"/b", false, ""⟩]⟩) ∧
    (freezeWindow (⟨none, none, false, [],
        [⟨"/a", false, "vim"⟩, ⟨"/b", false, ""⟩]⟩ : FWindow)).start_directory.isSome =
      allSamePath [⟨"/a", false, "vim"⟩, ⟨"/b", false, ""⟩] :=
  have h := freeze_hoist_start_directory_iff
    ⟨"d", [⟨none, none, false, [], [⟨"/a", false, "vim"⟩, ⟨"/b", false, ""⟩]⟩]⟩ 0
    ⟨none, none, false, [], [⟨"/a", false, "vim"⟩, ⟨"/b", false, ""⟩]⟩
    rfl (by decide)
  ⟨h.1, h.2.1⟩

/-- C6 counterexample: a session whose single pane reports the bare
interactive-shell name `zsh` as its current command; `freeze` records
`zsh` verbatim as a replayable `shell_command` entry, refuting "freeze
never records a bare interactive shell name". -/
theorem freeze_records_zsh :
    recordsBareShell (freeze ⟨"s",
      [⟨some "w", none, false, [], [⟨"/home/u", false, "zsh"⟩]⟩]⟩) = true ∧
    specBareShellOrInterp "zsh" = true ∧
    (freeze ⟨"s", [⟨some "w", none, false, [],
        [⟨"/home/u", false, "zsh"⟩]⟩]⟩).windows.map (fun w => w.panes) =
      [[PConfOut.conf [SCEntry.str "zsh"] false]] := by
  refine ⟨by decide, by decide, by decide⟩

/-- C6 amended: every string entry `freeze` records in a pane's
`shell_command` is either the added `cd <path>` command or a command that
passes the code's specific filter: it does not start with `-`, does not
end with `python`, `ruby` or `node`, and is neither `bash` nor `Python`
(those two yield an empty `[]` entry instead of their name). -/
theorem freeze_recorded_cmds_pass_filter (s : FSession) (wc : WConfOut)
    (hwc : wc ∈ (freeze s).windows) (es : List SCEntry) (f : Bool)
    (hes : PConfOut.conf es f ∈ wc.panes) (str : String)
    (hstr : SCEntry.str str ∈ es) :
    (∃ pth, str = "cd " ++ pth) ∨
      (strStartsWith str "-" = false ∧ strEndsWith str "python" = false ∧
       strEndsWith str "ruby" = false ∧ strEndsWith str "node" = false ∧
       str ≠ "bash" ∧ str ≠ "Python") := by
  simp only [freeze, List.mem_map] at hwc
  obtain ⟨w, _, rfl⟩ := hwc
  have hpanes : (freezeWindow w).panes =
      w.panes.map (freezePane (freezeWindow w).start_directory.isSome) := rfl
  rw [hpanes, List.mem_map] at hes
  obtain ⟨p, -, hp⟩ := hes
  rw [freezePane_eq] at hp
  have hcmd : SCEntry.str str ∈ cmdEntries p →
      (strStartsWith str "-" = false ∧ strEndsWith str "python" = false ∧
       strEndsWith str "ruby" = false ∧ strEndsWith str "node" = false ∧
       str ≠ "bash" ∧ str ≠ "Python") := by
    intro hm
    simp only [cmdEntries] at hm
    split_ifs at hm with h1 h2 h3
    · simp at hm
    · simp at hm
    · simp at hm
    · simp only [List.mem_singleton, SCEntry.str.injEq] at hm
      subst hm
      simp only [Bool.or_eq_true, List.any_eq_true, not_or, not_exists] at h1
      push_neg at h1
      obtain ⟨hpre, hsuf⟩ := h1
      simp only [List.mem_cons, List.not_mem_nil] at hsuf
      refine ⟨by simpa using hpre, ?_, ?_, ?_, ?_, ?_⟩
      · simpa using hsuf "python" (by simp)
      · simpa using hsuf "ruby" (by simp)
      · simpa using hsuf "node" (by simp)
      · exact fun hc => h3 (Or.inl hc)
      · exact fun hc => h3 (Or.inr hc)
  cases hHZ : (freezeWindow w).start_directory.isSome with
  | true =>
    rw [hHZ] at hp
    rw [if_pos rfl] at hp
    by_cases hemp : cmdEntries p = []
    · rw [if_pos hemp] at hp
      exact absurd hp (by simp)
    · rw [if_neg hemp] at hp
      obtain ⟨rfl, -⟩ := PConfOut.conf.inj hp
      exact Or.inr (hcmd hstr)
  | false =>
    rw [hHZ] at hp
    simp only [Bool.false_eq_true, if_false] at hp
    obtain ⟨rfl, -⟩ := PConfOut.conf.inj hp
    rcases List.mem_cons.mp hstr with h | h
    · exact Or.inl ⟨p.pane_current_path, (SCEntry.str.inj h)⟩
    · exact Or.inr (hcmd h)

/-- Helper: `finishBuild` never raises `emptyConfig` (that error is
raised by `__init__` alone). -/
theorem finishBuild_err_ne_empty (sconf : SConf) (scriptOk : String → Bool)
    (st : BuildSt) :
    (finishBuild sconf scriptOk st).err ≠ some BuildErr.emptyConfig := by
  unfold finishBuild windowsPhase
  cases sconf.before_script with
  | none => cases sconf.windows <;> simp
  | some p =>
    by_cases hp : scriptOk p
    · simp only [hp, if_true]
      cases sconf.windows <;> simp
    · simp [hp]

/-- Helper: the keystroke loop only appends `sendKeys` events. -/
theorem foldl_sendKeys_eq (pid : Nat) (cmds : List String) (st : BuildSt) :
    cmds.foldl (fun s c => emit (.sendKeys pid c) s) st =
      { st with trace := st.trace ++ cmds.map (Event.sendKeys pid) } := by
  induction cmds generalizing st with
  | nil => simp [emit]
  | cons c rest ih =>
    rw [List.foldl_cons, ih]
    simp [emit]

/-- Helper: `emitLayout` only appends its events. -/
theorem emitLayout_eq (wid : Nat) (wc : WindowConfig) (st : BuildSt) :
    emitLayout wid wc st = { st with trace := st.trace ++ layoutEvs wid wc } := by
  cases h : wc.layout <;> simp [emitLayout, layoutEvs, emit, h]

/-- Helper: closed form of one pane-iteration body. -/
theorem paneBody_eq (wid : Nat) (wc : WindowConfig) (pc : PaneConfig) (pid : Nat)
    (w : WinSt) (st : BuildSt) (acc : Option Nat) :
    paneBody wid wc pc pid w st acc =
      ({ st with trace := st.trace ++ paneBodyEvents wid wc pc pid },
       (if pc.focus then { w with activePane := pid } else w),
       (if pc.focus then some pid else acc)) := by
  simp only [paneBody, emitLayout_eq, foldl_sendKeys_eq]
  cases hf : pc.focus <;>
    simp [paneBodyEvents, emit, hf, List.append_assoc]

/-- Helper: closed form of the window-option loop. -/
theorem applyOptions_eq (wid : Nat) (opts : List (String × String)) :
    ∀ (st : BuildSt) (w : WinSt),
    applyOptions wid opts st w =
      ({ st with trace := st.trace ++
          opts.map (fun kv => Event.setWindowOption wid kv.1 kv.2) },
       { w with options := w.options ++ opts }) := by
  induction opts with
  | nil => intro st w; simp [applyOptions, emit]
  | cons kv rest ih =>
    intro st w
    have h1 : applyOptions wid (kv :: rest) st w =
        applyOptions wid rest (emit (.setWindowOption wid kv.1 kv.2) st)
          { w with options := w.options ++ [kv] } := rfl
    rw [h1, ih]
    simp [emit, List.append_assoc]

/-- Helper: closed form of the split loop. -/
theorem iter_create_panes_rest_eq (wid : Nat) (wc : WindowConfig) :
    ∀ (pcs : List PaneConfig) (acc : Option Nat) (w : WinSt) (st : BuildSt),
    iter_create_panes_rest wid wc pcs acc w st =
      ({ st with
          trace := st.trace ++ restEvents wid wc pcs st.nextId
          nextId := st.nextId + pcs.length },
       { w with
          panes := w.panes ++ restPanes pcs st.nextId (st.paneBaseIndex + w.panes.length)
          activePane := if pcs.isEmpty then w.activePane else st.nextId + pcs.length - 1 },
       (match lastFocusIdxP pcs with
        | some j => some (st.nextId + j)
        | none => acc)) := by
  intro pcs
  induction pcs with
  | nil =>
    intro acc w st
    simp [iter_create_panes_rest, restEvents, restPanes, lastFocusIdxP]
  | cons pc rest ih =>
    intro acc w st
    simp only [iter_create_panes_rest, paneBody_eq, emit]
    rw [ih]
    cases hf : pc.focus <;>
      cases hl : lastFocusIdxP rest <;>
        simp [restEvents, restPanes, lastFocusIdxP, hf, hl, List.append_assoc,
          Prod.ext_iff, BuildSt.mk.injEq, WinSt.mk.injEq, Nat.add_assoc,
          Nat.add_comm, Nat.add_left_comm]

/-- Helper: mapping into events that all fail a predicate filters to
nothing. -/
theorem filter_map_const_false {α : Type} (f : α → Event) (l : List α)
    (p : Event → Bool) (h : ∀ a, p (f a) = false) :
    (l.map f).filter p = [] := by
  induction l with
  | nil => rfl
  | cons a r ih => simp [h, ih]

/-- Helper: `panesFor` produces the requested number of panes. -/
theorem panesFor_length (n : Nat) : ∀ (pid idx : Nat),
    (panesFor n pid idx).length = n := by
  induction n with
  | zero => intro pid idx; rfl
  | succ m ih => intro pid idx; simp [panesFor, ih]

/-- Helper: the `j`-th pane of `panesFor`. -/
theorem panesFor_getElem (n : Nat) : ∀ (pid idx j : Nat), j < n →
    (panesFor n pid idx)[j]? = some ⟨pid + j, idx + j⟩ := by
  induction n with
  | zero => intro pid idx j hj; omega
  | succ m ih =>
    intro pid idx j hj
    cases j with
    | zero => simp [panesFor]
    | succ j2 =>
      have := ih (pid + 1) (idx + 1) j2 (by omega)
      simp only [panesFor, List.getElem?_cons_succ, this]
      congr 2 <;> omega

/-- Helper: the split loop's panes in `panesFor` form. -/
theorem restPanes_eq_panesFor (pcs : List PaneConfig) : ∀ (nid idx : Nat),
    restPanes pcs nid idx = panesFor pcs.length nid idx := by
  induction pcs with
  | nil => intro nid idx; rfl
  | cons pc rest ih => intro nid idx; simp [restPanes, panesFor, ih]

/-- Helper: the last-focus position is a valid position. -/
theorem lastFocusIdxP_lt (pcs : List PaneConfig) : ∀ (j : Nat),
    lastFocusIdxP pcs = some j → j < pcs.length := by
  induction pcs with
  | nil => intro j h; simp [lastFocusIdxP] at h
  | cons pc rest ih =>
    intro j h
    simp only [lastFocusIdxP] at h
    cases hl : lastFocusIdxP rest with
    | some j2 =>
      rw [hl] at h
      have := ih j2 hl
      simp at h
      simp only [List.length_cons]
      omega
    | none =>
      rw [hl] at h
      by_cases hf : pc.focus = true
      · simp [hf] at h
        simp [← h]
      · simp [hf] at h

/-- Helper: the last-focus position among the windows is valid. -/
theorem lastFocusIdxW_lt (wcs : List WindowConfig) : ∀ (k : Nat),
    lastFocusIdxW wcs = some k → k < wcs.length := by
  induction wcs with
  | nil => intro k h; simp [lastFocusIdxW] at h
  | cons wc rest ih =>
    intro k h
    simp only [lastFocusIdxW] at h
    cases hl : lastFocusIdxW rest with
    | some k2 =>
      rw [hl] at h
      have := ih k2 hl
      simp at h
      simp only [List.length_cons]
      omega
    | none =>
      rw [hl] at h
      by_cases hf : wc.focus = true
      · simp [hf] at h
        simp [← h]
      · simp [hf] at h

/-- Helper: a pane body emits no window-creation event. -/
theorem paneBodyEvents_filter_new (wid : Nat) (wc : WindowConfig)
    (pc : PaneConfig) (pid : Nat) :
    (paneBodyEvents wid wc pc pid).filter isNewWindowEv = [] := by
  cases hl : wc.layout <;> cases hf : pc.focus <;>
    simp [paneBodyEvents, layoutEvs, hl, hf, List.filter_append, isNewWindowEv,
      filter_map_const_false]

/-- Helper: a pane body emits no split event. -/
theorem paneBodyEvents_filter_split (wid : Nat) (wc : WindowConfig)
    (pc : PaneConfig) (pid : Nat) :
    (paneBodyEvents wid wc pc pid).filter isSplitEv = [] := by
  cases hl : wc.layout <;> cases hf : pc.focus <;>
    simp [paneBodyEvents, layoutEvs, hl, hf, List.filter_append, isSplitEv,
      filter_map_const_false]

/-- Helper: the split loop emits exactly one split per remaining pane,
carrying the resolved start directory. -/
theorem restEvents_filter_split (wid : Nat) (wc : WindowConfig) :
    ∀ (pcs : List PaneConfig) (nid : Nat),
    (restEvents wid wc pcs nid).filter isSplitEv =
      pcs.map (fun pc => Event.splitWindow wid true (resolveSd pc wc)) := by
  intro pcs
  induction pcs with
  | nil => intro nid; rfl
  | cons pc rest ih =>
    intro nid
    simp [restEvents, List.filter_append, isSplitEv, paneBodyEvents_filter_split,
      ih]

/-- Helper: the split loop emits no window-creation event. -/
theorem restEvents_filter_new (wid : Nat) (wc : WindowConfig) :
    ∀ (pcs : List PaneConfig) (nid : Nat),
    (restEvents wid wc pcs nid).filter isNewWindowEv = [] := by
  intro pcs
  induction pcs with
  | nil => intro nid; rfl
  | cons pc rest ih =>
    intro nid
    simp [restEvents, List.filter_append, isNewWindowEv,
      paneBodyEvents_filter_new, ih]

/-- Helper: window creation emits exactly one window-creation event,
carrying the configured name, start directory, `attach=False` and the
index hint. -/
theorem cwEvents_filter_new (isFirst : Bool) (wc : WindowConfig) (st : BuildSt) :
    (cwEvents isFirst wc st).filter isNewWindowEv =
      [Event.newWindow wc.window_name wc.start_directory false wc.window_index] := by
  cases isFirst <;> cases hf : wc.focus <;>
    simp [cwEvents, hf, List.filter_append, isNewWindowEv,
      filter_map_const_false]

/-- Helper: window creation emits no split event. -/
theorem cwEvents_filter_split (isFirst : Bool) (wc : WindowConfig) (st : BuildSt) :
    (cwEvents isFirst wc st).filter isSplitEv = [] := by
  cases isFirst <;> cases hf : wc.focus <;>
    simp [cwEvents, hf, List.filter_append, isSplitEv, filter_map_const_false]

/-- Helper: closed form of the pane-creation phase for a window with at
least one configured pane. -/
theorem iter_create_panes_eq_cons (wid : Nat) (wc : WindowConfig)
    (pc : PaneConfig) (rest : List PaneConfig) (w : WinSt) (st : BuildSt)
    (hpcs : wc.panes = pc :: rest) :
    iter_create_panes wid wc w st =
      ({ st with
          trace := st.trace ++
            [.showWindowOption "pane-base-index", .attachedPane] ++
            paneBodyEvents wid wc pc w.activePane ++
            restEvents wid wc rest st.nextId
          nextId := st.nextId + rest.length },
       { w with
          panes := w.panes ++ restPanes rest st.nextId (st.paneBaseIndex + w.panes.length)
          activePane := if rest.isEmpty then w.activePane else st.nextId + rest.length - 1 },
       (match lastFocusIdxP rest with
        | some j => some (st.nextId + j)
        | none => if pc.focus then some w.activePane else none)) := by
  simp only [iter_create_panes, hpcs, emit, paneBody_eq]
  rw [iter_create_panes_rest_eq]
  cases hf : pc.focus <;>
    cases hl : lastFocusIdxP rest <;>
      simp [hf, hl, List.append_assoc]

/-- Helper: closed form of one window creation. -/
theorem createWindow_eq (isFirst : Bool) (wc : WindowConfig) (st : BuildSt) :
    createWindow isFirst wc st =
      ({ st with
          trace := st.trace ++ cwEvents isFirst wc st
          nextId := st.nextId + 2
          windows := winBase isFirst st
          attached := cwAtt isFirst wc st },
       ⟨st.nextId, newWinIdx isFirst wc st, wc.window_name, wc.options,
        [⟨st.nextId + 1, st.paneBaseIndex⟩], st.nextId + 1⟩) := by
  cases isFirst <;> cases hf : wc.focus <;>
    simp [createWindow, cwEvents, winBase, movedList, newWinIdx, cwAtt,
      applyOptions_eq, emit, hf, List.append_assoc]

/-- Helper: closed form of one full window iteration (creation, panes,
focus-pane selection, appending the finished window), for a window config
with at least one pane. -/
theorem processWindow_eq (isFirst : Bool) (wc : WindowConfig) (st : BuildSt)
    (hpc : wc.panes ≠ []) :
    processWindow isFirst wc st =
      ({ st with
          trace := st.trace ++ pwEvents isFirst wc st
          nextId := st.nextId + 1 + wc.panes.length
          windows := winBase isFirst st ++ [pwWindow isFirst wc st]
          attached := cwAtt isFirst wc st },
       st.nextId) := by
  obtain ⟨pc, rest, hpcs⟩ := List.exists_cons_of_ne_nil hpc
  simp only [processWindow, createWindow_eq]
  rw [iter_create_panes_eq_cons _ _ _ _ _ _ hpcs]
  simp only [pwEvents, pwWindow, hpcs, restPanes_eq_panesFor, panesFor]
  cases rest with
  | nil =>
    cases hf : pc.focus <;>
      simp [lastFocusIdxP, hf, emit, restEvents, panesFor, List.append_assoc,
        Nat.add_assoc, Nat.add_comm, Nat.add_left_comm, BuildSt.mk.injEq,
        WinSt.mk.injEq, Prod.ext_iff]
  | cons pc2 rest2 =>
    cases hl : lastFocusIdxP rest2 <;> cases hf : pc.focus <;>
      cases hf2 : pc2.focus <;>
        simp [lastFocusIdxP, hl, hf, hf2, emit, List.append_assoc,
          Nat.add_assoc, Nat.add_comm, Nat.add_left_comm, BuildSt.mk.injEq,
          WinSt.mk.injEq, Prod.ext_iff, panesFor_length]

/-- Helper: the fields of the closed-form window. -/
theorem pwWindow_spec (isFirst : Bool) (wc : WindowConfig) (st : BuildSt) :
    (pwWindow isFirst wc st).window_name = wc.window_name ∧
    (pwWindow isFirst wc st).options = wc.options ∧
    (pwWindow isFirst wc st).panes.length = wc.panes.length ∧
    (pwWindow isFirst wc st).window_id = st.nextId ∧
    (∀ j, lastFocusIdxP wc.panes = some j →
      ∃ pp, (pwWindow isFirst wc st).panes[j]? = some pp ∧
        (pwWindow isFirst wc st).activePane = pp.pane_id) := by
  refine ⟨rfl, rfl, panesFor_length .., rfl, ?_⟩
  intro j hj
  have hjlt := lastFocusIdxP_lt _ _ hj
  refine ⟨⟨st.nextId + 1 + j, st.paneBaseIndex + j⟩, ?_, ?_⟩
  · have := panesFor_getElem wc.panes.length (st.nextId + 1) st.paneBaseIndex j hjlt
    simpa [pwWindow] using this
  · simp [pwWindow, hj]

/-- Helper: one window iteration emits exactly one window-creation
event. -/
theorem pwEvents_filter_new (isFirst : Bool) (wc : WindowConfig) (st : BuildSt)
    (h : wc.panes ≠ []) :
    ((pwEvents isFirst wc st).filter isNewWindowEv).length = 1 := by
  obtain ⟨pc, rest, hpcs⟩ := List.exists_cons_of_ne_nil h
  cases hsel : lastFocusIdxP (pc :: rest) <;>
    simp [pwEvents, hpcs, hsel, List.filter_append, cwEvents_filter_new,
      paneBodyEvents_filter_new, restEvents_filter_new, isNewWindowEv]

/-- Helper: one window iteration emits one split per pane beyond the
first. -/
theorem pwEvents_filter_split (isFirst : Bool) (wc : WindowConfig) (st : BuildSt)
    (h : wc.panes ≠ []) :
    ((pwEvents isFirst wc st).filter isSplitEv).length = wc.panes.length - 1 := by
  obtain ⟨pc, rest, hpcs⟩ := List.exists_cons_of_ne_nil h
  cases hsel : lastFocusIdxP (pc :: rest) <;>
    simp [pwEvents, hpcs, hsel, List.filter_append, cwEvents_filter_split,
      paneBodyEvents_filter_split, restEvents_filter_split, isSplitEv]

/-- Helper: full specification of the window loop from its second
iteration on (the first-window flag cleared): windows are appended in
configuration order with matching name, options and pane count; ids are
fresh; creation events are counted exactly; and the focus accumulator
ends at the last `focus: true` window. -/
theorem iter_create_windows_spec (wcs : List WindowConfig) :
    ∀ (foc : Option Nat) (st : BuildSt), (∀ wc ∈ wcs, wc.panes ≠ []) →
    ∃ (evs : List Event) (L : List WinSt),
      (iter_create_windows wcs false foc st).1.trace = st.trace ++ evs ∧
      (iter_create_windows wcs false foc st).1.windows = st.windows ++ L ∧
      (iter_create_windows wcs false foc st).1.sessionId = st.sessionId ∧
      (iter_create_windows wcs false foc st).1.sessionName = st.sessionName ∧
      (iter_create_windows wcs false foc st).1.paneBaseIndex = st.paneBaseIndex ∧
      st.nextId ≤ (iter_create_windows wcs false foc st).1.nextId ∧
      L.length = wcs.length ∧
      (∀ (i : Nat) (wc : WindowConfig), wcs[i]? = some wc →
        ∃ (w2 : WinSt), L[i]? = some w2 ∧
        w2.window_name = wc.window_name ∧ w2.options = wc.options ∧
        w2.panes.length = wc.panes.length ∧ st.nextId ≤ w2.window_id ∧
        (∀ (j : Nat), lastFocusIdxP wc.panes = some j →
          ∃ (pp : PaneSt), w2.panes[j]? = some pp ∧ w2.activePane = pp.pane_id)) ∧
      (evs.filter isNewWindowEv).length = wcs.length ∧
      (evs.filter isSplitEv).length =
        (wcs.map (fun wc => wc.panes.length - 1)).sum ∧
      (match lastFocusIdxW wcs with
       | some k => ∃ (w2 : WinSt), L[k]? = some w2 ∧
           (iter_create_windows wcs false foc st).2 = some w2.window_id
       | none => (iter_create_windows wcs false foc st).2 = foc) := by
  induction wcs with
  | nil =>
    intro foc st hp
    refine ⟨[], [], ?_⟩
    simp [iter_create_windows, lastFocusIdxW]
  | cons wc rest ih =>
    intro foc st hp
    have hwc : wc.panes ≠ [] := hp wc (by simp)
    have hrest : ∀ wc2 ∈ rest, wc2.panes ≠ [] := fun wc2 h2 => hp wc2 (by simp [h2])
    have key : iter_create_windows (wc :: rest) false foc st =
        iter_create_windows rest false
          (if wc.focus then some st.nextId else foc)
          ⟨st.sessionId, st.sessionName, st.windows ++ [pwWindow false wc st],
           cwAtt false wc st, st.nextId + 1 + wc.panes.length,
           st.paneBaseIndex, st.trace ++ pwEvents false wc st⟩ := by
      simp only [iter_create_windows, processWindow_eq false wc st hwc, winBase]
      rfl
    rw [key]
    obtain ⟨evs2, L2, h1, h2, h3, h4, h5, h6, h7, h8, h9, h10, h11⟩ :=
      ih (if wc.focus then some st.nextId else foc)
        ⟨st.sessionId, st.sessionName, st.windows ++ [pwWindow false wc st],
         cwAtt false wc st, st.nextId + 1 + wc.panes.length,
         st.paneBaseIndex, st.trace ++ pwEvents false wc st⟩ hrest
    obtain ⟨hn, ho, hpl, hid, hfp⟩ := pwWindow_spec false wc st
    refine ⟨pwEvents false wc st ++ evs2, pwWindow false wc st :: L2,
      ?_, ?_, ?_, ?_, ?_, ?_, ?_, ?_, ?_, ?_, ?_⟩
    · rw [h1]; simp [List.append_assoc]
    · rw [h2]; simp [List.append_assoc]
    · rw [h3]
    · rw [h4]
    · rw [h5]
    · simp only at h6
      omega
    · simp [h7]
    · intro i wc2 hi
      cases i with
      | zero =>
        simp only [List.getElem?_cons_zero, Option.some.injEq] at hi
        subst hi
        exact ⟨pwWindow false wc st, by simp, hn, ho, hpl, by omega, hfp⟩
      | succ i2 =>
        simp only [List.getElem?_cons_succ] at hi ⊢
        obtain ⟨w2, hw2, ha, hb, hc, hd, he⟩ := h8 i2 wc2 hi
        exact ⟨w2, hw2, ha, hb, hc, by simp at hd; omega, he⟩
    · simp [List.filter_append, h9, pwEvents_filter_new false wc st hwc]
      omega
    · simp [List.filter_append, h10, pwEvents_filter_split false wc st hwc]
    · cases hlw : lastFocusIdxW rest with
      | some k =>
        rw [hlw] at h11
        obtain ⟨w2, hw2, hfoc⟩ := h11
        simp only [lastFocusIdxW, hlw]
        exact ⟨w2, by simpa using hw2, hfoc⟩
      | none =>
        rw [hlw] at h11
        simp only [lastFocusIdxW, hlw]
        cases hf : wc.focus with
        | true =>
          rw [hf] at h11
          simp only [if_pos rfl] at h11
          simp only [if_pos rfl]
          refine ⟨pwWindow false wc st, by simp, ?_⟩
          rw [h11, hid]
          simp
        | false =>
          rw [hf] at h11
          simp only [Bool.false_eq_true, if_false] at h11
          simp only [Bool.false_eq_true, if_false]
          exact h11

/-- Helper: a successful fresh build reduces to the window phase on the
just-created session's state. -/
theorem build_fresh_ok (sconf : SConf) (name : String) (existing : List String)
    (scriptOk : String → Bool) (pb : Nat)
    (hname : sconf.session_name = some name) (hnex : name ∉ existing)
    (hscript : ∀ p, sconf.before_script = some p → scriptOk p = true) :
    build sconf true existing none scriptOk pb =
      windowsPhase sconf
        ⟨0, name, [⟨1, 1, none, [], [⟨2, pb⟩], 2⟩], 1, 3, pb,
         preludeEvents name sconf⟩ := by
  have hne : sconf.isEmpty = false := by simp [SConf.isEmpty, hname]
  have hnex2 : existing.contains name = false := by simpa using hnex
  cases hbs : sconf.before_script with
  | none =>
    simp [build, finishBuild, emit, hne, hname, hnex, hnex2, hbs, preludeEvents,
      scriptEvents]
  | some p =>
    have hok := hscript p hbs
    simp [build, finishBuild, emit, hne, hname, hnex, hnex2, hbs, hok,
      preludeEvents, scriptEvents]

/-- Helper: the prelude contains no creation events. -/
theorem preludeEvents_no_create (name : String) (sconf : SConf) :
    (preludeEvents name sconf).filter isNewWindowEv = [] ∧
    (preludeEvents name sconf).filter isSplitEv = [] := by
  cases hbs : sconf.before_script <;>
    simp [preludeEvents, scriptEvents, hbs, isNewWindowEv, isSplitEv]

/-- Helper: full specification of a successful fresh build whose
configuration names at least one window, each with at least one pane.
The built session consists of exactly one window per window config, in
order; the first configured window replaces the displaced default
window; the trace decomposes into prelude, first-window events, the
remaining windows' events and the final focus selection; and the final
attached window realises the last `focus: true` window config. -/
theorem build_fresh_spec (sconf : SConf) (name : String) (existing : List String)
    (scriptOk : String → Bool) (pb : Nat) (w0 : WindowConfig)
    (rest : List WindowConfig)
    (hname : sconf.session_name = some name) (hnex : name ∉ existing)
    (hscript : ∀ p, sconf.before_script = some p → scriptOk p = true)
    (hwin : sconf.windows = some (w0 :: rest))
    (hpanes : ∀ wc ∈ w0 :: rest, wc.panes ≠ []) :
    ∃ (evs2 selEvs : List Event) (L2 : List WinSt),
      (build sconf true existing none scriptOk pb).err = none ∧
      (build sconf true existing none scriptOk pb).st.windows =
        pwWindow true w0
          ⟨0, name, [⟨1, 1, none, [], [⟨2, pb⟩], 2⟩], 1, 3, pb,
           preludeEvents name sconf⟩ :: L2 ∧
      (build sconf true existing none scriptOk pb).st.trace =
        preludeEvents name sconf ++
          pwEvents true w0
            ⟨0, name, [⟨1, 1, none, [], [⟨2, pb⟩], 2⟩], 1, 3, pb,
             preludeEvents name sconf⟩ ++ evs2 ++ selEvs ∧
      L2.length = rest.length ∧
      (∀ (i : Nat) (wc : WindowConfig), rest[i]? = some wc →
        ∃ (w2 : WinSt), L2[i]? = some w2 ∧
        w2.window_name = wc.window_name ∧ w2.options = wc.options ∧
        w2.panes.length = wc.panes.length ∧
        4 + w0.panes.length ≤ w2.window_id ∧
        (∀ (j : Nat), lastFocusIdxP wc.panes = some j →
          ∃ (pp : PaneSt), w2.panes[j]? = some pp ∧
            w2.activePane = pp.pane_id)) ∧
      (evs2.filter isNewWindowEv).length = rest.length ∧
      (evs2.filter isSplitEv).length =
        (rest.map (fun wc => wc.panes.length - 1)).sum ∧
      ((selEvs.filter isNewWindowEv) = [] ∧ (selEvs.filter isSplitEv) = []) ∧
      (match lastFocusIdxW (w0 :: rest) with
       | some k => ∃ (w2 : WinSt),
           (build sconf true existing none scriptOk pb).st.windows[k]? = some w2 ∧
           (build sconf true existing none scriptOk pb).st.attached = w2.window_id ∧
           selEvs = [Event.selectWindow w2.window_id]
       | none => selEvs = []) := by
  have hw0 : w0.panes ≠ [] := hpanes w0 (by simp)
  have hrest : ∀ wc ∈ rest, wc.panes ≠ [] := fun wc h => hpanes wc (by simp [h])
  rw [build_fresh_ok sconf name existing scriptOk pb hname hnex hscript]
  set st0 : BuildSt :=
    ⟨0, name, [⟨1, 1, none, [], [⟨2, pb⟩], 2⟩], 1, 3, pb,
     preludeEvents name sconf⟩ with hst0
  set st1 : BuildSt :=
    ⟨0, name, [pwWindow true w0 st0], 3, 4 + w0.panes.length, pb,
     preludeEvents name sconf ++ pwEvents true w0 st0⟩ with hst1
  set foc1 : Option Nat := if w0.focus then some 3 else none with hfoc1
  have hatt : cwAtt true w0 st0 = 3 := by
    cases hf0 : w0.focus <;> simp [cwAtt, winBase, movedList, hf0, hst0]
  have key : iter_create_windows (w0 :: rest) true none st0 =
      iter_create_windows rest false foc1 st1 := by
    simp only [iter_create_windows, processWindow_eq true w0 st0 hw0, hatt]
    have hbase : winBase true st0 = [] := by
      simp [winBase, movedList, hst0]
    rw [hbase, hfoc1]
    simp only [List.nil_append]
  have hwp : windowsPhase sconf st0 =
      ⟨none,
       match (iter_create_windows rest false foc1 st1).2 with
       | some wid =>
         emit (.selectWindow wid)
           { (iter_create_windows rest false foc1 st1).1 with attached := wid }
       | none => (iter_create_windows rest false foc1 st1).1⟩ := by
    simp only [windowsPhase, hwin]
    rw [key]
  rw [hwp]
  obtain ⟨evs2, L2, h1, h2, h3, h4, h5, h6, h7, h8, h9, h10, h11⟩ :=
    iter_create_windows_spec rest foc1 st1 hrest
  have hcorr : ∀ (i : Nat) (wc : WindowConfig), rest[i]? = some wc →
      ∃ (w2 : WinSt), L2[i]? = some w2 ∧
      w2.window_name = wc.window_name ∧ w2.options = wc.options ∧
      w2.panes.length = wc.panes.length ∧
      4 + w0.panes.length ≤ w2.window_id ∧
      (∀ (j : Nat), lastFocusIdxP wc.panes = some j →
        ∃ (pp : PaneSt), w2.panes[j]? = some pp ∧
          w2.activePane = pp.pane_id) := by
    intro i wc hi
    obtain ⟨w3, hw3, ha, hb, hc, hd, he⟩ := h8 i wc hi
    exact ⟨w3, hw3, ha, hb, hc, by simpa using hd, he⟩
  cases hlw : lastFocusIdxW rest with
  | some k =>
    rw [hlw] at h11
    obtain ⟨w2, hw2, hfoc⟩ := h11
    rw [hfoc]
    refine ⟨evs2, [Event.selectWindow w2.window_id], L2, rfl, ?_, ?_, h7,
      hcorr, h9, h10, by simp [isNewWindowEv, isSplitEv], ?_⟩
    · exact h2.trans rfl
    · exact (congrArg (fun l => l ++ [Event.selectWindow w2.window_id]) h1).trans rfl
    · simp only [lastFocusIdxW, hlw]
      refine ⟨w2, ?_, ?_, rfl⟩
      · have hmid : (st1.windows ++ L2)[k + 1]? = L2[k]? := by
          simp [hst1]
        exact (congrArg (fun l => l[k + 1]?) h2).trans (hmid.trans hw2)
      · rfl
  | none =>
    rw [hlw] at h11
    by_cases hf0 : w0.focus = true
    · have hfoc1b : foc1 = some 3 := by rw [hfoc1, if_pos hf0]
      have h11b : (iter_create_windows rest false foc1 st1).2 = some 3 := by
        rw [h11, hfoc1b]
      rw [h11b]
      refine ⟨evs2, [Event.selectWindow 3], L2, rfl, ?_, ?_, h7,
        hcorr, h9, h10, by simp [isNewWindowEv, isSplitEv], ?_⟩
      · exact h2.trans rfl
      · exact (congrArg (fun l => l ++ [Event.selectWindow 3]) h1).trans rfl
      · simp only [lastFocusIdxW, hlw, if_pos hf0]
        refine ⟨pwWindow true w0 st0, ?_, ?_, rfl⟩
        · have hmid : (st1.windows ++ L2)[(0 : Nat)]? =
              some (pwWindow true w0 st0) := by
            simp [hst1]
          exact (congrArg (fun l => l[(0 : Nat)]?) h2).trans hmid
        · rfl
    · have hfoc1b : foc1 = none := by rw [hfoc1, if_neg hf0]
      have h11b : (iter_create_windows rest false foc1 st1).2 = none := by
        rw [h11, hfoc1b]
      rw [h11b]
      refine ⟨evs2, [], L2, rfl, ?_, ?_, h7, hcorr, h9, h10, by simp, ?_⟩
      · exact h2.trans rfl
      · exact h1.trans (List.append_nil _).symm
      · simp only [lastFocusIdxW, hlw, if_neg hf0]

/-- C4: for every pane created by splitting (every pane after a window's
first), the start directory passed to the `split-window` call is the
pane's own `start_directory` if present, else the window's
`start_directory` if present, else unspecified — pane-level beats
window-level beats unspecified. -/
theorem split_start_directory_resolution (wid : Nat) (wc : WindowConfig)
    (w : WinSt) (st : BuildSt) :
    ((iter_create_panes wid wc w st).1.trace).filter isSplitEv =
      st.trace.filter isSplitEv ++
        (wc.panes.drop 1).map (fun pc =>
          Event.splitWindow wid true
            (match pc.start_directory with
             | some d => some d
             | none => wc.start_directory)) := by
  cases hpcs : wc.panes with
  | nil =>
    simp only [iter_create_panes, hpcs, emit]
    simp [List.filter_append, isSplitEv]
  | cons pc rest =>
    rw [iter_create_panes_eq_cons wid wc pc rest w st hpcs]
    simp [List.filter_append, isSplitEv, paneBodyEvents_filter_split,
      restEvents_filter_split, resolveSd]

/-- C3: for every configuration naming at least one window (each window
with at least one pane, the data-model invariant), a fresh build succeeds
and creates exactly one live window per window config and exactly one
live pane per pane config, in input order: the session's windows
correspond index-by-index to the configuration in name, options and pane
count, exactly one `new-window` call is issued per window config, and
exactly one `split-window` call per pane config beyond each window's
first (that first pane reusing the window's initial pane). -/
theorem build_creates_windows_panes_in_order (sconf : SConf) (name : String)
    (existing : List String) (scriptOk : String → Bool) (pb : Nat)
    (ws : List WindowConfig)
    (hname : sconf.session_name = some name) (hnex : name ∉ existing)
    (hscript : ∀ p, sconf.before_script = some p → scriptOk p = true)
    (hwin : sconf.windows = some ws) (hws : ws ≠ [])
    (hpanes : ∀ wc ∈ ws, wc.panes ≠ []) :
    (build sconf true existing none scriptOk pb).err = none ∧
    (build sconf true existing none scriptOk pb).st.windows.length =
      ws.length ∧
    (∀ (i : Nat) (wc : WindowConfig), ws[i]? = some wc →
      ∃ (w2 : WinSt),
        (build sconf true existing none scriptOk pb).st.windows[i]? = some w2 ∧
        w2.window_name = wc.window_name ∧ w2.options = wc.options ∧
        w2.panes.length = wc.panes.length) ∧
    ((build sconf true existing none scriptOk pb).st.trace.filter
      isNewWindowEv).length = ws.length ∧
    ((build sconf true existing none scriptOk pb).st.trace.filter
      isSplitEv).length = (ws.map (fun wc => wc.panes.length - 1)).sum := by
  obtain ⟨w0, rest, rfl⟩ := List.exists_cons_of_ne_nil hws
  have hw0 : w0.panes ≠ [] := hpanes w0 (by simp)
  obtain ⟨evs2, selEvs, L2, he, hw, ht, hlen, hcorr, hnew, hsplit, hself,
    hfocus⟩ :=
    build_fresh_spec sconf name existing scriptOk pb w0 rest hname hnex
      hscript hwin hpanes
  obtain ⟨hn, ho, hpl, hid, hfp⟩ := pwWindow_spec true w0
    ⟨0, name, [⟨1, 1, none, [], [⟨2, pb⟩], 2⟩], 1, 3, pb,
     preludeEvents name sconf⟩
  refine ⟨he, ?_, ?_, ?_, ?_⟩
  · rw [hw]
    simp [hlen]
  · intro i wc hi
    cases i with
    | zero =>
      simp only [List.getElem?_cons_zero, Option.some.injEq] at hi
      subst hi
      refine ⟨pwWindow true w0
        ⟨0, name, [⟨1, 1, none, [], [⟨2, pb⟩], 2⟩], 1, 3, pb,
         preludeEvents name sconf⟩, ?_, hn, ho, hpl⟩
      rw [hw]
      simp
    | succ i2 =>
      simp only [List.getElem?_cons_succ] at hi
      obtain ⟨w2, hw2, ha, hb, hc, _, _⟩ := hcorr i2 wc hi
      refine ⟨w2, ?_, ha, hb, hc⟩
      rw [hw]
      simpa using hw2
  · rw [ht]
    simp [List.filter_append, (preludeEvents_no_create name sconf).1,
      pwEvents_filter_new true w0 _ hw0, hnew, hself.1]
    omega
  · rw [ht]
    simp [List.filter_append, (preludeEvents_no_create name sconf).2,
      pwEvents_filter_split true w0 _ hw0, hsplit, hself.2]

/-- C2: in every successful fresh build the first configured window is
created by the displace-and-replace sequence — the pre-existing default
window (id 1) is moved to index 99, the new window is created, then the
displaced original is killed — so the first window of the built session
is never the default window (no live window keeps id 1) and reflects
windows[0]'s name and options. -/
theorem build_first_window_replaces_default (sconf : SConf) (name : String)
    (existing : List String) (scriptOk : String → Bool) (pb : Nat)
    (w0 : WindowConfig) (rest : List WindowConfig)
    (hname : sconf.session_name = some name) (hnex : name ∉ existing)
    (hscript : ∀ p, sconf.before_script = some p → scriptOk p = true)
    (hwin : sconf.windows = some (w0 :: rest))
    (hpanes : ∀ wc ∈ w0 :: rest, wc.panes ≠ []) :
    (build sconf true existing none scriptOk pb).err = none ∧
    (∃ (tl : List Event),
      (build sconf true existing none scriptOk pb).st.trace =
        preludeEvents name sconf ++
          [Event.moveWindow 1 99,
           Event.newWindow w0.window_name w0.start_directory false
             w0.window_index,
           Event.killWindow 1] ++ tl) ∧
    (∃ (w2 : WinSt),
      (build sconf true existing none scriptOk pb).st.windows[(0 : Nat)]? =
        some w2 ∧
      w2.window_name = w0.window_name ∧ w2.options = w0.options) ∧
    (∀ w2 ∈ (build sconf true existing none scriptOk pb).st.windows,
      w2.window_id ≠ 1) := by
  have hw0 : w0.panes ≠ [] := hpanes w0 (by simp)
  obtain ⟨evs2, selEvs, L2, he, hw, ht, hlen, hcorr, hnew, hsplit, hself,
    hfocus⟩ :=
    build_fresh_spec sconf name existing scriptOk pb w0 rest hname hnex
      hscript hwin hpanes
  obtain ⟨hn, ho, hpl, hid, hfp⟩ := pwWindow_spec true w0
    ⟨0, name, [⟨1, 1, none, [], [⟨2, pb⟩], 2⟩], 1, 3, pb,
     preludeEvents name sconf⟩
  refine ⟨he, ?_, ?_, ?_⟩
  · obtain ⟨tail0, hpw⟩ : ∃ t, pwEvents true w0
        ⟨0, name, [⟨1, 1, none, [], [⟨2, pb⟩], 2⟩], 1, 3, pb,
         preludeEvents name sconf⟩ =
        Event.moveWindow 1 99 ::
          Event.newWindow w0.window_name w0.start_directory false
            w0.window_index ::
          Event.killWindow 1 :: t := ⟨_, rfl⟩
    refine ⟨tail0 ++ evs2 ++ selEvs, ?_⟩
    rw [ht, hpw]
    simp [List.append_assoc]
  · refine ⟨pwWindow true w0
      ⟨0, name, [⟨1, 1, none, [], [⟨2, pb⟩], 2⟩], 1, 3, pb,
       preludeEvents name sconf⟩, ?_, hn, ho⟩
    rw [hw]
    simp
  · intro w2 hmem
    rw [hw] at hmem
    rcases List.mem_cons.mp hmem with h | h
    · rw [h, hid]
      simp
    · obtain ⟨i, hi⟩ := List.mem_iff_getElem?.mp h
      have hilt : i < rest.length := by
        by_contra hge
        rw [List.getElem?_eq_none (by omega)] at hi
        exact Option.noConfusion hi
      have hri : rest[i]? = some rest[i] := List.getElem?_eq_getElem hilt
      obtain ⟨w3, hw3, _, _, _, hd, _⟩ := hcorr i rest[i] hri
      rw [hw3] at hi
      obtain rfl : w3 = w2 := Option.some.inj hi
      omega

/-- C1 amended: focus selection also happens during creation (see the
counterexample), but the final focus is still the last-declared
`focus: true` entries: after a successful fresh build whose configuration
has some `focus: true` window, the session's attached window is the
window built from the last such window config, the very last call of the
build selects it, and — within it — the active pane is the pane built
from that window's last `focus: true` pane config (when one exists). -/
theorem build_final_focus_is_last_declared (sconf : SConf) (name : String)
    (existing : List String) (scriptOk : String → Bool) (pb : Nat)
    (ws : List WindowConfig) (k : Nat)
    (hname : sconf.session_name = some name) (hnex : name ∉ existing)
    (hscript : ∀ p, sconf.before_script = some p → scriptOk p = true)
    (hwin : sconf.windows = some ws)
    (hpanes : ∀ wc ∈ ws, wc.panes ≠ [])
    (hlfw : lastFocusIdxW ws = some k) :
    (build sconf true existing none scriptOk pb).err = none ∧
    ∃ (w2 : WinSt),
      (build sconf true existing none scriptOk pb).st.windows[k]? = some w2 ∧
      (build sconf true existing none scriptOk pb).st.attached =
        w2.window_id ∧
      (build sconf true existing none scriptOk pb).st.trace.getLast? =
        some (Event.selectWindow w2.window_id) ∧
      (∀ (wc : WindowConfig) (j : Nat), ws[k]? = some wc →
        lastFocusIdxP wc.panes = some j →
        ∃ (pp : PaneSt), w2.panes[j]? = some pp ∧
          w2.activePane = pp.pane_id) := by
  have hws : ws ≠ [] := by
    intro h
    rw [h] at hlfw
    simp [lastFocusIdxW] at hlfw
  obtain ⟨w0, rest, rfl⟩ := List.exists_cons_of_ne_nil hws
  obtain ⟨evs2, selEvs, L2, he, hw, ht, hlen, hcorr, hnew, hsplit, hself,
    hfocus⟩ :=
    build_fresh_spec sconf name existing scriptOk pb w0 rest hname hnex
      hscript hwin hpanes
  rw [hlfw] at hfocus
  obtain ⟨w2, hw2, hatt2, hsel⟩ := hfocus
  refine ⟨he, w2, hw2, hatt2, ?_, ?_⟩
  · rw [ht, hsel, List.getLast?_concat]
  · intro wc j hwc hj
    cases k with
    | zero =>
      simp only [List.getElem?_cons_zero, Option.some.injEq] at hwc
      subst hwc
      obtain ⟨hn, ho, hpl, hid, hfp⟩ := pwWindow_spec true w0
        ⟨0, name, [⟨1, 1, none, [], [⟨2, pb⟩], 2⟩], 1, 3, pb,
         preludeEvents name sconf⟩
      have h0 : (build sconf true existing none scriptOk pb).st.windows[(0 : Nat)]? =
          some (pwWindow true w0
            ⟨0, name, [⟨1, 1, none, [], [⟨2, pb⟩], 2⟩], 1, 3, pb,
             preludeEvents name sconf⟩) := by
        rw [hw]
        simp
      obtain rfl : w2 = pwWindow true w0
          ⟨0, name, [⟨1, 1, none, [], [⟨2, pb⟩], 2⟩], 1, 3, pb,
           preludeEvents name sconf⟩ :=
        Option.some.inj (hw2.symm.trans h0)
      exact hfp j hj
    | succ k2 =>
      simp only [List.getElem?_cons_succ] at hwc
      obtain ⟨w3, hw3, _, _, _, _, he3⟩ := hcorr k2 wc hwc
      rw [hw] at hw2
      simp only [List.getElem?_cons_succ] at hw2
      obtain rfl : w2 = w3 := Option.some.inj (hw2.symm.trans hw3)
      exact he3 j hj

/-- Witness for `build_creates_windows_panes_in_order` at a one-window,
two-pane configuration. -/
theorem build_creates_windows_panes_in_order_w :
    (build ⟨some "s", none, some
        [⟨some "a", none, none, none, false, [],
          [⟨none, false, []⟩, ⟨none, false, []⟩]⟩]⟩
      true [] none (fun _ => true) 0).err = none ∧
    (build ⟨some "s", none, some
        [⟨some "a", none, none, none, false, [],
          [⟨none, false, []⟩, ⟨none, false, []⟩]⟩]⟩
      true [] none (fun _ => true) 0).st.windows.length = 1 :=
  have h := build_creates_windows_panes_in_order
    ⟨some "s", none, some
      [⟨some "a", none, none, none, false, [],
        [⟨none, false, []⟩, ⟨none, false, []⟩]⟩]⟩
    "s" [] (fun _ => true) 0
    [⟨some "a", none, none, none, false, [],
      [⟨none, false, []⟩, ⟨none, false, []⟩]⟩]
    rfl (by decide) (by simp) rfl (by decide) (by decide)
  ⟨h.1, h.2.1⟩

/-- Witness for `build_first_window_replaces_default`. -/
theorem build_first_window_replaces_default_w :
    (build ⟨some "s", none, some
        [⟨some "a", none, none, none, false, [], [⟨none, false, []⟩]⟩]⟩
      true [] none (fun _ => true) 0).err = none :=
  (build_first_window_replaces_default
    ⟨some "s", none, some
      [⟨some "a", none, none, none, false, [], [⟨none, false, []⟩]⟩]⟩
    "s" [] (fun _ => true) 0
    ⟨some "a", none, none, none, false, [], [⟨none, false, []⟩]⟩ []
    rfl (by decide) (by simp) rfl (by decide)).1

/-- Witness for `build_final_focus_is_last_declared` at a configuration
whose single window has `focus: true`. -/
theorem build_final_focus_is_last_declared_w :
    (build ⟨some "s", none, some
        [⟨some "a", none, none, none, true, [],
          [⟨none, true, []⟩, ⟨none, false, []⟩]⟩]⟩
      true [] none (fun _ => true) 0).err = none :=
  (build_final_focus_is_last_declared
    ⟨some "s", none, some
      [⟨some "a", none, none, none, true, [],
        [⟨none, true, []⟩, ⟨none, false, []⟩]⟩]⟩
    "s" [] (fun _ => true) 0
    [⟨some "a", none, none, none, true, [],
      [⟨none, true, []⟩, ⟨none, false, []⟩]⟩] 0
    rfl (by decide) (by simp) rfl (by decide) (by decide)).1

/-- C8: when no session is supplied and a session with the configured
name already exists, `build` fails with the session-already-exists error
after only the `has_session` and `findWhere` queries — zero mutation
calls, so the existing session is untouched. -/
theorem build_existing_session_rejected (sconf : SConf) (name : String)
    (existing : List String) (scriptOk : String → Bool) (paneBase : Nat)
    (hname : sconf.session_name = some name)
    (hex : name ∈ existing) :
    (build sconf true existing none scriptOk paneBase).err =
      some BuildErr.sessionExists ∧
    (build sconf true existing none scriptOk paneBase).st.trace =
      [.hasSession name, .findWhere name] ∧
    ((build sconf true existing none scriptOk paneBase).st.trace.filter
      isMutationEv) = [] := by
  have hne : sconf.isEmpty = false := by simp [SConf.isEmpty, hname]
  simp [build, hne, hname, hex, isMutationEv, List.filter]

/-- Witness for `build_existing_session_rejected`. -/
theorem build_existing_session_rejected_w :
    (build ⟨some "s", none, some []⟩ true ["s"] none (fun _ => true) 0).err =
      some BuildErr.sessionExists ∧
    (build ⟨some "s", none, some []⟩ true ["s"] none (fun _ => true) 0).st.trace =
      [.hasSession "s", .findWhere "s"] ∧
    ((build ⟨some "s", none, some []⟩ true ["s"] none
        (fun _ => true) 0).st.trace.filter isMutationEv) = [] :=
  build_existing_session_rejected ⟨some "s", none, some []⟩ "s" ["s"]
    (fun _ => true) 0 rfl (by decide)

/-- C7: a failing `before_script` in a fresh build kills the just-created
session, surfaces the error, and the trace shows no window or pane was
ever created — the script runs strictly before window/pane creation. -/
theorem build_prescript_failure_rolls_back (sconf : SConf) (name path : String)
    (existing : List String) (scriptOk : String → Bool) (paneBase : Nat)
    (hname : sconf.session_name = some name)
    (hnex : name ∉ existing)
    (hbs : sconf.before_script = some path)
    (hfail : scriptOk path = false) :
    (build sconf true existing none scriptOk paneBase).err =
      some BuildErr.preScript ∧
    (build sconf true existing none scriptOk paneBase).st.trace =
      [.hasSession name, .newSession name, .listSessions, .hasSession name,
       .runScript path, .killSession 0] ∧
    ((build sconf true existing none scriptOk paneBase).st.trace.filter
      isCreateEv) = [] := by
  have hne : sconf.isEmpty = false := by simp [SConf.isEmpty, hname]
  refine ⟨?_, ?_, ?_⟩ <;>
    simp [build, finishBuild, emit, hne, hname, hnex, hbs, hfail, isCreateEv,
      isNewWindowEv, isSplitEv, List.filter]

/-- Witness for `build_prescript_failure_rolls_back`. -/
theorem build_prescript_failure_rolls_back_w :
    (build ⟨some "s", some "setup.sh", some []⟩ true [] none
        (fun _ => false) 0).err = some BuildErr.preScript ∧
    (build ⟨some "s", some "setup.sh", some []⟩ true [] none
        (fun _ => false) 0).st.trace =
      [.hasSession "s", .newSession "s", .listSessions, .hasSession "s",
       .runScript "setup.sh", .killSession 0] ∧
    ((build ⟨some "s", some "setup.sh", some []⟩ true [] none
        (fun _ => false) 0).st.trace.filter isCreateEv) = [] :=
  build_prescript_failure_rolls_back ⟨some "s", some "setup.sh", some []⟩
    "s" "setup.sh" [] (fun _ => false) 0 rfl (by decide) rfl rfl

/-- C10: when the caller supplies a pre-existing session and the
`before_script` fails, the compensating `kill_session` is issued against
that supplied session — the kill is not limited to sessions the builder
itself created. -/
theorem build_prescript_failure_kills_supplied (sconf : SConf) (s : LiveSession)
    (hasServer : Bool) (existing : List String) (scriptOk : String → Bool)
    (paneBase : Nat) (path : String)
    (hbs : sconf.before_script = some path)
    (hfail : scriptOk path = false) :
    (build sconf hasServer existing (some s) scriptOk paneBase).err =
      some BuildErr.preScript ∧
    (build sconf hasServer existing (some s) scriptOk paneBase).st.trace =
      [.listSessions, .hasSession s.session_name, .runScript path,
       .killSession s.session_id] := by
  have hne : sconf.isEmpty = false := by simp [SConf.isEmpty, hbs]
  constructor <;> simp [build, finishBuild, emit, hne, hbs, hfail]

/-- Witness for `build_prescript_failure_kills_supplied`: the supplied
session (id 7), which the builder did not create, is the kill target. -/
theorem build_prescript_failure_kills_supplied_w :
    (build ⟨some "s", some "setup.sh", some []⟩ true []
        (some ⟨7, "other", [⟨1, 1, none, [], [⟨2, 0⟩], 2⟩], 1⟩)
        (fun _ => false) 0).err = some BuildErr.preScript ∧
    (build ⟨some "s", some "setup.sh", some []⟩ true []
        (some ⟨7, "other", [⟨1, 1, none, [], [⟨2, 0⟩], 2⟩], 1⟩)
        (fun _ => false) 0).st.trace =
      [.listSessions, .hasSession "other", .runScript "setup.sh",
       .killSession 7] :=
  build_prescript_failure_kills_supplied ⟨some "s", some "setup.sh", some []⟩
    ⟨7, "other", [⟨1, 1, none, [], [⟨2, 0⟩], 2⟩], 1⟩ true []
    (fun _ => false) 0 "setup.sh" rfl rfl

/-- C9 counterexample: a non-empty configuration that names a session but
an empty window list is not rejected at all — the build succeeds after
creating the session (four multiplexer calls issued, no
`EmptyConfiguration` failure), refuting the claim that a configuration
naming no windows fails with `EmptyConfiguration` before any multiplexer
call. -/
theorem build_no_windows_not_rejected :
    (build ⟨some "s", none, some []⟩ true [] none (fun _ => true) 0).err =
      none ∧
    (build ⟨some "s", none, some []⟩ true [] none (fun _ => true) 0).st.trace =
      [.hasSession "s", .newSession "s", .listSessions, .hasSession "s"] := by
  constructor <;> rfl

/-- C9 amended: only a configuration that is empty as a whole (no keys)
is rejected with the `EmptyConfiguration` error, by `__init__`, before
any multiplexer call; a non-empty configuration is never rejected with
that error (missing keys surface as key errors or build success
instead). -/
theorem build_empty_configuration (sconf : SConf) (hasServer : Bool)
    (existing : List String) (supplied : Option LiveSession)
    (scriptOk : String → Bool) (paneBase : Nat) :
    (sconf.isEmpty = true →
      (build sconf hasServer existing supplied scriptOk paneBase).err =
        some BuildErr.emptyConfig ∧
      (build sconf hasServer existing supplied scriptOk paneBase).st.trace = []) ∧
    (sconf.isEmpty = false →
      (build sconf hasServer existing supplied scriptOk paneBase).err ≠
        some BuildErr.emptyConfig) := by
  constructor
  · intro h
    constructor <;> simp [build, h]
  · intro h
    simp only [build, h, Bool.false_eq_true, if_false]
    cases supplied with
    | some s =>
      show (finishBuild sconf scriptOk _).err ≠ some BuildErr.emptyConfig
      exact finishBuild_err_ne_empty sconf scriptOk _
    | none =>
      cases hasServer with
      | false => simp
      | true =>
        simp only [Bool.not_true, Bool.false_eq_true, if_false]
        cases sconf.session_name with
        | none => simp
        | some name =>
          by_cases hex : name ∈ existing
          · simp [hex]
          · have hex2 : existing.contains name = false := by simpa using hex
            simp only [hex2, Bool.false_eq_true, if_false]
            exact finishBuild_err_ne_empty sconf scriptOk _

/-- Witness for `build_empty_configuration` at the empty configuration. -/
theorem build_empty_configuration_w :
    (build ⟨none, none, none⟩ true [] none (fun _ => true) 0).err =
      some BuildErr.emptyConfig ∧
    (build ⟨none, none, none⟩ true [] none (fun _ => true) 0).st.trace = [] :=
  (build_empty_configuration ⟨none, none, none⟩ true [] none
    (fun _ => true) 0).1 rfl

/-- C1 counterexample: in a two-window configuration whose first window
has `focus: true`, the build selects that window (`select_window`) while
the second window is still to be created — a selection event precedes a
creation event in the trace, refuting "no window or pane is selected
while windows/panes are still being created". -/
theorem build_selects_during_creation :
    hasCreateAfterSelect
      ((build ⟨some "s", none, some
          [⟨some "a", none, none, none, true, [], [⟨none, false, []⟩]⟩,
           ⟨some "b", none, none, none, false, [], [⟨none, false, []⟩]⟩]⟩
        true [] none (fun _ => true) 0).st.trace) = true := by
  decide

/-- Witness for `freeze_recorded_cmds_pass_filter` at a pane running
`vim`. -/
theorem freeze_recorded_cmds_pass_filter_w :
    (∃ pth, "vim" = "cd " ++ pth) ∨
      ((strStartsWith "vim" "-" = false ∧ strEndsWith "vim" "python" = false ∧
        strEndsWith "vim" "ruby" = false ∧ strEndsWith "vim" "node" = false ∧
        "vim" ≠ "bash" ∧ "vim" ≠ "Python")) :=
  freeze_recorded_cmds_pass_filter
    ⟨"s", [⟨none, none, false, [], [⟨"/a", false, "vim"⟩]⟩]⟩
    (freezeWindow ⟨none, none, false, [], [⟨"/a", false, "vim"⟩]⟩)
    (by decide) [SCEntry.str "vim"] false (by decide) "vim" (by decide)

end Tmuxp
